import Mathlib

/-!
# Verification of the Dagitoru job-orchestration core

Shallow embedding of the orchestration core of the Dagitoru repository:

* the Idempotency Store (`src/app/lib/kv-store.ts`, class `EventProcessor`),
* the Slack event-ingestion dispatcher
  (`src/app/api/slack/combined-handler/route.ts`, the later Firestore +
  Pub/Sub version of the handler),
* the Cloud Run worker (`src/cloudrun/src/process.js`, `processJob`),
* the callback reconciler (`src/app/api/cloudrun/callback/route.ts`),
* the job-retry endpoint (`src/unnamed/part_005`).

External collaborators (GCS, Pub/Sub, Firestore, the Slack web API, the
speech / summarization services) are modelled as oracles: boolean or
`Except`-valued parameters recording whether each external call succeeds,
and effect lists recording exactly which records, queue messages and chat
notifications each handler produces.  Time is an explicit parameter
(`Date.now()` in milliseconds for the idempotency cache, epoch seconds for
the Slack timestamp check), and JavaScript truthiness on optional strings
is modelled by `truthy`.
-/

/-! ## Idempotency Store (src/app/lib/kv-store.ts)

The in-memory store is a `Map<string, number>` from keys to the
`Date.now()` instant at which the key was recorded.  We embed it as an
association list.  `MEMORY_EXPIRY_MS` is the TTL used by
`cleanupMemoryStore`. -/

def MEMORY_EXPIRY_MS : Nat := 3600000

/-- `cleanupMemoryStore` from kv-store.ts: drop every entry whose recorded
instant is more than `MEMORY_EXPIRY_MS` in the past.  JavaScript computes
`now - timestamp > EXPIRY` with a possibly negative difference; truncated
`Nat` subtraction agrees with it on the kept/dropped decision (a future
timestamp is kept in both). -/
def cleanupMemoryStore (now : Nat) (st : List (String × Nat)) : List (String × Nat) :=
  st.filter (fun kv => decide (now - kv.2 ≤ MEMORY_EXPIRY_MS))

/-- `EventProcessor.isProcessedOrMark` from kv-store.ts: clean up the
cache, report `true` if the (prefixed) key is present, otherwise record it
at the current instant and report `false`.  Returns the reported value and
the updated store. -/
def isProcessedOrMark (eventHash : String) (now : Nat) (st : List (String × Nat)) :
    Bool × List (String × Nat) :=
  let st1 := cleanupMemoryStore now st
  let key := ("event:") ++ eventHash
  if st1.any (fun kv => kv.1 == key) then (true, st1)
  else (false, (key, now) :: st1)

/-! ## Job statuses (src/unnamed/part_012, app/lib/types/job.ts) -/

/-- The `JobStatus` union type.  The source declaration annotates `pending`
as set by the dispatcher right after publishing, and the four remaining
statuses as set by the Cloud Run worker. -/
inductive JobStatus
  | pending
  | processing_audio
  | transcribing
  | summarizing
  | completed
  | failed
deriving DecidableEq, Repr

def isTerminal : JobStatus → Bool
  | JobStatus.completed => true
  | JobStatus.failed => true
  | _ => false

/-- The status graph of spec section 4.3:
`pending → processing_audio → transcribing → summarizing → completed`,
plus an edge from every non-terminal status to `failed`. -/
def specEdge : JobStatus → JobStatus → Bool
  | JobStatus.pending, JobStatus.processing_audio => true
  | JobStatus.processing_audio, JobStatus.transcribing => true
  | JobStatus.transcribing, JobStatus.summarizing => true
  | JobStatus.summarizing, JobStatus.completed => true
  | s, JobStatus.failed => !(isTerminal s)
  | _, _ => false

/-- Every consecutive pair of the list is an edge of the status graph. -/
def chainOk : List JobStatus → Bool
  | [] => true
  | [_] => true
  | a :: b :: rest => specEdge a b && chainOk (b :: rest)

/-! ## Cloud Run worker (src/cloudrun/src/process.js, processJob)

`processJob` runs, in order: find + download the staged media file
("fetch"), extract normalized audio ("transform"), run speech recognition
("analyze"), and upload the transcript artifact ("persist").  Each stage's
external outcome is an oracle in `WorkerEnv`.  A stage error is rethrown to
the surrounding catch, which sends a failure callback; on success a success
callback carrying the transcript URL is sent. -/

inductive Stage
  | fetch
  | transform
  | analyze
  | persist
deriving DecidableEq, Repr

def stageOrder : List Stage := [Stage.fetch, Stage.transform, Stage.analyze, Stage.persist]

/-- The entered-stage list is an in-order, no-skip run of the fixed stage
sequence. -/
def stageOrderOk (l : List Stage) : Prop := ∃ k, l = stageOrder.take k

structure WorkerEnv where
  findMedia : Option String
  downloadResult : Except String Unit
  extractResult : Except String Unit
  transcribeResult : Except String String
  persistResult : Except String Unit
  transcriptUrl : String

structure CallbackMsg where
  jobId : String
  success : Bool
  payload : String
deriving DecidableEq, Repr

structure WorkerRun where
  outcome : Except String String
  entered : List Stage
  completed : List Stage
  callbacks : List CallbackMsg
deriving Repr

/-- Failure exit of `processJob`: the catch block builds a
`{jobId, status: "failure", error}` callback and sends it. -/
def workerFail (jobId : String) (entered completed : List Stage) (e : String) : WorkerRun :=
  { outcome := Except.error e
  , entered := entered
  , completed := completed
  , callbacks := [{ jobId := jobId, success := false, payload := e }] }

/-- `processJob` from process.js, with external outcomes supplied by
`env`.  `fileCount` is `job.fileIds.length`.  `entered` records the stages
whose work was started, `completed` those that finished without error. -/
def runStages (jobId : String) (fileCount : Nat) (env : WorkerEnv) : WorkerRun :=
  if fileCount = 0 then
    workerFail jobId [] [] ("No files to process")
  else
    match env.findMedia with
    | none => workerFail jobId [Stage.fetch] [] ("Media file not found in GCS bucket")
    | some _ =>
      match env.downloadResult with
      | Except.error e => workerFail jobId [Stage.fetch] [] e
      | Except.ok _ =>
        match env.extractResult with
        | Except.error e => workerFail jobId [Stage.fetch, Stage.transform] [Stage.fetch] e
        | Except.ok _ =>
          match env.transcribeResult with
          | Except.error e =>
            workerFail jobId [Stage.fetch, Stage.transform, Stage.analyze]
              [Stage.fetch, Stage.transform] e
          | Except.ok _ =>
            match env.persistResult with
            | Except.error e => workerFail jobId stageOrder [Stage.fetch, Stage.transform, Stage.analyze] e
            | Except.ok _ =>
              { outcome := Except.ok env.transcriptUrl
              , entered := stageOrder
              , completed := stageOrder
              , callbacks := [{ jobId := jobId, success := true, payload := env.transcriptUrl }] }

/-- Modelled from the spec: the per-stage Job Record status updates of the
Worker State Machine (spec section 4.3).  The `JobStatus` declaration and
the dispatcher that creates the record in `pending` are in the source, but
the Cloud Run worker revision that performs these Firestore updates is not
(the worker present, process.js, predates the Firestore job-record design).
After each completed stage the status advances one step along the graph;
a stage error moves the job to `failed`. -/
def statusAfterStage : Stage → JobStatus
  | Stage.fetch => JobStatus.processing_audio
  | Stage.transform => JobStatus.transcribing
  | Stage.analyze => JobStatus.summarizing
  | Stage.persist => JobStatus.completed

/-- Modelled from the spec: the sequence of statuses the Job Record passes
through during one worker run, starting from the dispatcher-written
`pending`. -/
def workerStatusTrace (run : WorkerRun) : List JobStatus :=
  JobStatus.pending :: (run.completed.map statusAfterStage ++
    (match run.outcome with
     | Except.error _ => [JobStatus.failed]
     | Except.ok _ => []))

structure JobRecordW where
  jobId : String
  status : JobStatus
  errorDetails : Option String
  transcriptUrl : Option String
deriving DecidableEq, Repr

/-- Modelled from the spec: the terminal Job Record written by the worker
-- `failed` with the captured error message, or `completed` with the
transcript locator. -/
def workerFinalRecord (jobId : String) (run : WorkerRun) : JobRecordW :=
  match run.outcome with
  | Except.error e =>
    { jobId := jobId, status := JobStatus.failed, errorDetails := some e, transcriptUrl := none }
  | Except.ok url =>
    { jobId := jobId, status := JobStatus.completed, errorDetails := none, transcriptUrl := some url }

/-! ## Event-ingestion dispatcher
(src/app/api/slack/combined-handler/route.ts, the later revision)

The handler reads the raw body, parses it, echoes `url_verification`
challenges, initializes the Pub/Sub client from the credential environment
variable, verifies the Slack timestamp and signature, deduplicates
`event_callback` envelopes through `isProcessedOrMark`, uploads the
event's files to GCS, writes a `pending` Job Record to Firestore, publishes
a queue message, and notifies the conversation.  `HandlerEnv` carries the
clock, configuration and external-call outcomes; `HandlerResult` records
the response and every external effect. -/

def MAX_FILE_SIZE : Nat := 1024 * 1024 * 1024

/-- JavaScript truthiness of an optional string (absent and empty are
falsy). -/
def truthy : Option String → Bool
  | none => false
  | some s => s != ""

/-- `generateEventHash`: the dedup key derived from
`event_id + "_" + channel + "_" + ts`.  The SHA-256 hex digest is modelled
as the underlying event key itself: the digest is a deterministic function
of it, and hash collisions are not modelled. -/
def generateEventHash (event_id channel ts : String) : String :=
  event_id ++ ("_") ++ channel ++ ("_") ++ ts

structure SlackFile where
  id : String
  name : String
  size : Nat
  url_private : Option String
deriving DecidableEq, Repr

structure SlackEvent where
  type : String
  channel : Option String
  ts : Option String
  thread_ts : Option String
  user : Option String
  text : Option String
  files : List SlackFile
deriving DecidableEq, Repr

/-- The parsed JSON body of an ingestion request. -/
structure ParsedBody where
  type : String
  challenge : String
  event_id : Option String
  event : SlackEvent
deriving DecidableEq, Repr

/-- An ingestion request: the raw body (the signature is computed over
it), its parse result (`none` when `JSON.parse` throws), and the two Slack
headers. -/
structure SlackRequest where
  body : String
  json : Option ParsedBody
  tsHeader : Option String
  sigHeader : Option String

structure HandlerEnv where
  /-- `Math.floor(Date.now() / 1000)` at request time. -/
  nowSec : Int
  /-- `Date.now()` used by the idempotency store. -/
  nowMs : Nat
  /-- the GCP credentials environment variable is present and parses. -/
  credentialsOk : Bool
  /-- HMAC-SHA256 hex digest keyed with the Slack signing secret. -/
  hmacHex : String → String
  /-- JavaScript `Number()` applied to the timestamp header. -/
  strToNum : String → Int
  /-- `uuidv4()` for this request. -/
  newJobId : String
  /-- whether `uploadFileToGCS` succeeds for the i-th file. -/
  uploadOk : Nat → Bool
  uploadErrMsg : Nat → String
  gcsPathOf : Nat → String
  /-- whether the Firestore job-record write succeeds. -/
  dbOk : Bool
  /-- whether the Pub/Sub publish succeeds. -/
  publishOk : Bool

inductive SlackResponse
  | challenge (c : String)
  | configError
  | invalidTimestamp
  | invalidSignature
  | duplicateSkipped (hash : String)
  | jobCreated (jobId : String)
  | processedOk (hash : String)
  | plainOk
  | internalError
deriving DecidableEq, Repr

/-- HTTP status code of each response. -/
def statusCode : SlackResponse → Nat
  | SlackResponse.challenge _ => 200
  | SlackResponse.configError => 500
  | SlackResponse.invalidTimestamp => 401
  | SlackResponse.invalidSignature => 401
  | SlackResponse.duplicateSkipped _ => 200
  | SlackResponse.jobCreated _ => 200
  | SlackResponse.processedOk _ => 200
  | SlackResponse.plainOk => 200
  | SlackResponse.internalError => 500

structure SlackMsg where
  channel : String
  text : String
  thread : String
deriving DecidableEq, Repr

structure JobRecordD where
  jobId : String
  status : JobStatus
  gcsPaths : List String
  fileNames : List String
deriving DecidableEq, Repr

structure QueueMessage where
  jobId : String
  gcsPaths : List String
  fileNames : List String
  channel : String
  ts : String
deriving DecidableEq, Repr

structure UploadResult where
  success : Bool
  fileId : String
  fileName : String
  gcsPath : String
  errMsg : String
deriving DecidableEq, Repr

structure HandlerResult where
  response : SlackResponse
  store : List (String × Nat)
  jobsCreated : List JobRecordD
  published : List QueueMessage
  slackSent : List SlackMsg
  uploadsAttempted : Nat
deriving Repr

/-- A result that only answers, with no external effect. -/
def pureResult (r : SlackResponse) (store : List (String × Nat)) : HandlerResult :=
  { response := r, store := store, jobsCreated := [], published := []
  , slackSent := [], uploadsAttempted := 0 }

/-- `verifySlackSignature`: HMAC-SHA256 of `"v0:" + timestamp + ":" + body`
with the signing secret, hex-encoded and prefixed with `v0=`, compared to
the signature header.  `crypto.timingSafeEqual` is modelled functionally as
string equality (a length mismatch throws and is caught, yielding false). -/
def verifySlackSignature (env : HandlerEnv) (body signature timestamp : String) : Bool :=
  (("v0=") ++ env.hmacHex (("v0:") ++ timestamp ++ (":") ++ body)) == signature

def sizeLimitText : String := ("ファイルサイズが大きすぎます（最大1GB）")

def noUrlText : String := ("ファイルのプライベートURLがありません")

def allFailedMessage : String :=
  ("❌ ファイルの処理に失敗しました。すべてのファイルをアップロードできませんでした。")

/-- One iteration of the upload loop: missing private URL and oversized
files are rejected before `uploadFileToGCS` is called; otherwise the upload
outcome comes from the oracle. -/
def processFile (env : HandlerEnv) (i : Nat) (f : SlackFile) : UploadResult :=
  if !(truthy f.url_private) then
    { success := false, fileId := f.id, fileName := f.name, gcsPath := "", errMsg := noUrlText }
  else if MAX_FILE_SIZE < f.size then
    { success := false, fileId := f.id, fileName := f.name, gcsPath := "", errMsg := sizeLimitText }
  else if env.uploadOk i then
    { success := true, fileId := f.id, fileName := f.name
    , gcsPath := env.gcsPathOf i, errMsg := "" }
  else
    { success := false, fileId := f.id, fileName := f.name, gcsPath := ""
    , errMsg := env.uploadErrMsg i }

/-- Whether the loop reaches the `uploadFileToGCS` call for this file. -/
def uploadAttempted (f : SlackFile) : Bool :=
  truthy f.url_private && decide (f.size ≤ MAX_FILE_SIZE)

def perFileErrorLines (results : List UploadResult) : String :=
  String.intercalate ("\n")
    ((results.filter (fun r => !r.success)).map
      (fun r => ("• ") ++ r.fileName ++ (": ") ++ r.errMsg))

/-- The completion notification text built in the successful-upload
branch. -/
def statusMessage (jobId : String) (results : List UploadResult) : String :=
  let succCount := (results.filter (fun r => r.success)).length
  let failCount := results.length - succCount
  let m1 := ("📋 処理ジョブを作成しました (ID: ") ++ jobId ++ (")\n")
  let m2 := if 0 < succCount then
      m1 ++ ("✅ 処理中のファイル: ") ++ toString succCount ++ ("件\n")
    else m1
  if 0 < failCount then
    m2 ++ ("❌ 処理できなかったファイル: ") ++ toString failCount ++ ("件\n")
      ++ perFileErrorLines results ++ ("\n")
  else m2

/-- `event.thread_ts || event.ts` (JavaScript or-else on truthiness). -/
def orElseStr (a b : Option String) : String :=
  if truthy a then a.getD "" else b.getD ""

/-- The successful-upload branch: create the Job Record (kept only if the
Firestore write succeeds), publish the queue message (kept only if the
publish succeeds; both failures are swallowed), notify the conversation,
and answer `processing_job_created_and_published`. -/
def dispatchJob (env : HandlerEnv) (jb : ParsedBody) (results : List UploadResult)
    (attempted : Nat) (store : List (String × Nat)) : HandlerResult :=
  let ev := jb.event
  let succ := results.filter (fun r => r.success)
  let jobId := env.newJobId
  let record : JobRecordD :=
    { jobId := jobId, status := JobStatus.pending
    , gcsPaths := succ.map (fun r => r.gcsPath)
    , fileNames := succ.map (fun r => r.fileName) }
  let msg : QueueMessage :=
    { jobId := jobId
    , gcsPaths := succ.map (fun r => r.gcsPath)
    , fileNames := succ.map (fun r => r.fileName)
    , channel := (ev.channel).getD ""
    , ts := (ev.ts).getD "" }
  { response := SlackResponse.jobCreated jobId
  , store := store
  , jobsCreated := if env.dbOk then [record] else []
  , published := if env.publishOk then [msg] else []
  , slackSent := [{ channel := (ev.channel).getD ""
                  , text := statusMessage jobId results, thread := orElseStr ev.thread_ts ev.ts }]
  , uploadsAttempted := attempted }

/-- The every-upload-failed branch: notify the conversation with the
generic failure text and fall through to the `processed` response. -/
def allFailedResult (jb : ParsedBody) (hash : String) (attempted : Nat)
    (store : List (String × Nat)) : HandlerResult :=
  let ev := jb.event
  { response := SlackResponse.processedOk hash
  , store := store
  , jobsCreated := []
  , published := []
  , slackSent := [{ channel := (ev.channel).getD "", text := allFailedMessage
                  , thread := orElseStr ev.thread_ts ev.ts }]
  , uploadsAttempted := attempted }

/-- The file-processing block of the `event_callback` branch: upload every
file, then dispatch if at least one upload succeeded, else only notify.
`store` is the idempotency store as already updated by the dedup mark. -/
def processEventFiles (env : HandlerEnv) (jb : ParsedBody) (hash : String)
    (store : List (String × Nat)) : HandlerResult :=
  let results := jb.event.files.enum.map (fun p => processFile env p.1 p.2)
  let attempted := (jb.event.files.filter uploadAttempted).length
  if !(results.filter (fun r => r.success)).isEmpty then
    dispatchJob env jb results attempted store
  else
    allFailedResult jb hash attempted store

/-- The `event_callback` branch: when the event carries an id, timestamp
and channel, consult the idempotency store first; a seen event
short-circuits with `duplicate_event_skipped` and no effect.  A fresh
event is marked, then processed only if it is a `message` with files. -/
def handleEventCallback (env : HandlerEnv) (jb : ParsedBody)
    (store : List (String × Nat)) : HandlerResult :=
  if truthy jb.event_id && truthy jb.event.ts && truthy jb.event.channel then
    let hash := generateEventHash ((jb.event_id).getD "") ((jb.event.channel).getD "")
      ((jb.event.ts).getD "")
    let pm := isProcessedOrMark hash env.nowMs store
    if pm.1 then
      pureResult (SlackResponse.duplicateSkipped hash) pm.2
    else
      if jb.event.type == ("message") && !jb.event.files.isEmpty then
        processEventFiles env jb hash pm.2
      else
        pureResult (SlackResponse.processedOk hash) pm.2
  else
    pureResult SlackResponse.plainOk store

/-- The POST handler of the combined-handler route (later revision): parse,
echo `url_verification` before any verification, require the GCP
credentials, reject stale timestamps then bad signatures with 401, and
process `event_callback` envelopes. -/
def combinedHandlerPOST (env : HandlerEnv) (req : SlackRequest)
    (store : List (String × Nat)) : HandlerResult :=
  match req.json with
  | none => pureResult SlackResponse.internalError store
  | some jb =>
    if jb.type == ("url_verification") then
      pureResult (SlackResponse.challenge jb.challenge) store
    else if !env.credentialsOk then
      pureResult SlackResponse.configError store
    else if !(truthy req.tsHeader)
        || decide (env.strToNum ((req.tsHeader).getD "") < env.nowSec - 60 * 10) then
      pureResult SlackResponse.invalidTimestamp store
    else if !(truthy req.sigHeader)
        || !(verifySlackSignature env req.body ((req.sigHeader).getD "") ((req.tsHeader).getD "")) then
      pureResult SlackResponse.invalidSignature store
    else if jb.type == ("event_callback") then
      handleEventCallback env jb store
    else
      pureResult SlackResponse.plainOk store

/-! ## Callback reconciler (src/app/api/cloudrun/callback/route.ts)

On `failure` the handler logs, notifies the conversation when the callback
metadata carries a channel, and acknowledges with `error_logged`.  On
`success` it fetches the transcript artifact, calls the summarization
endpoint, creates the knowledge-base page, and notifies the conversation;
each step's outcome is an oracle and a failure is answered with a 500
after an error notification.  `ReconcilerResult` counts every downstream
call and lists every Job Record update the handler performs. -/

structure CallbackMeta where
  channel : Option String
  ts : Option String
  thread_ts : Option String
deriving DecidableEq, Repr

structure CloudRunCallback where
  jobId : Option String
  status : String
  transcriptUrl : Option String
  error : Option String
  metadata : Option CallbackMeta
deriving DecidableEq, Repr

structure CallbackRequest where
  /-- `req.body` is non-null. -/
  hasBody : Bool
  /-- parse result of the body (`none` when `req.json()` throws). -/
  json : Option CloudRunCallback

structure TranscriptData where
  transcript : String
  metadata : Option CallbackMeta
deriving DecidableEq, Repr

structure ReconcilerEnv where
  fetchResult : Except String TranscriptData
  summarizeResult : Except String String
  notionResult : Except String String

inductive CallbackResponse
  | emptyBody
  | invalidPayload
  | missingJobId
  | errorLogged
  | noTranscriptUrl
  | processingFailed (msg : String)
  | successResult (pageUrl : String)
deriving DecidableEq, Repr

def callbackStatusCode : CallbackResponse → Nat
  | CallbackResponse.emptyBody => 400
  | CallbackResponse.invalidPayload => 400
  | CallbackResponse.missingJobId => 400
  | CallbackResponse.errorLogged => 200
  | CallbackResponse.noTranscriptUrl => 400
  | CallbackResponse.processingFailed _ => 500
  | CallbackResponse.successResult _ => 200

structure ReconcilerResult where
  response : CallbackResponse
  slackSent : List SlackMsg
  transcriptFetches : Nat
  summarizeCalls : Nat
  notionCreates : Nat
  recordUpdates : List (String × JobStatus)
deriving Repr

def reconcilerPure (r : CallbackResponse) : ReconcilerResult :=
  { response := r, slackSent := [], transcriptFetches := 0, summarizeCalls := 0
  , notionCreates := 0, recordUpdates := [] }

/-- The error notification sent to `callback.metadata?.channel` when that
channel is truthy. -/
def metaErrNotify (meta : Option CallbackMeta) (text : String) : List SlackMsg :=
  match meta with
  | some m =>
    if truthy m.channel then
      [{ channel := (m.channel).getD "", text := text, thread := orElseStr m.thread_ts m.ts }]
    else []
  | none => []

/-- POST of the Cloud Run callback route. -/
def callbackPOST (env : ReconcilerEnv) (req : CallbackRequest) : ReconcilerResult :=
  if !req.hasBody then reconcilerPure CallbackResponse.emptyBody
  else
    match req.json with
    | none => reconcilerPure CallbackResponse.invalidPayload
    | some cb =>
      if !(truthy cb.jobId) then reconcilerPure CallbackResponse.missingJobId
      else if cb.status == ("failure") then
        { response := CallbackResponse.errorLogged
        , slackSent := metaErrNotify cb.metadata
            (("音声/動画処理中にエラーが発生しました: ") ++ orElseStr cb.error (some ("不明なエラー")))
        , transcriptFetches := 0, summarizeCalls := 0, notionCreates := 0
        , recordUpdates := [] }
      else if !(truthy cb.transcriptUrl) then reconcilerPure CallbackResponse.noTranscriptUrl
      else
        match env.fetchResult with
        | Except.error e =>
          { response := CallbackResponse.processingFailed e
          , slackSent := metaErrNotify cb.metadata (("処理中にエラーが発生しました: ") ++ e)
          , transcriptFetches := 1, summarizeCalls := 0, notionCreates := 0
          , recordUpdates := [] }
        | Except.ok td =>
          match env.summarizeResult with
          | Except.error e =>
            { response := CallbackResponse.processingFailed e
            , slackSent := metaErrNotify cb.metadata (("処理中にエラーが発生しました: ") ++ e)
            , transcriptFetches := 1, summarizeCalls := 1, notionCreates := 0
            , recordUpdates := [] }
          | Except.ok _ =>
            match env.notionResult with
            | Except.error e =>
              { response := CallbackResponse.processingFailed e
              , slackSent := metaErrNotify cb.metadata (("処理中にエラーが発生しました: ") ++ e)
              , transcriptFetches := 1, summarizeCalls := 1, notionCreates := 1
              , recordUpdates := [] }
            | Except.ok pageUrl =>
              { response := CallbackResponse.successResult pageUrl
              , slackSent :=
                  (match td.metadata with
                   | some m =>
                     if truthy m.channel && (truthy m.thread_ts || truthy m.ts) then
                       [{ channel := (m.channel).getD ""
                        , text := ("✅ 音声/動画からの議事録が完成しました！\n📝 <") ++ pageUrl ++ ("|Notionで見る>")
                        , thread := orElseStr m.thread_ts m.ts }]
                     else []
                   | none => [])
              , transcriptFetches := 1, summarizeCalls := 1, notionCreates := 1
              , recordUpdates := [] }

/-! ## Job-retry endpoint (src/unnamed/part_005)

POST with the job id as the last path segment; the body re-supplies the
original event fields.  The Cloud Run restart call is commented out in the
source and replaced by a constant-true stub, so the handler validates,
builds a fresh `pending` job object, and answers success without
dispatching anything. -/

structure RetryBody where
  fileIds : List String
  text : Option String
  channel : Option String
  ts : Option String
  thread_ts : Option String
  user : Option String
deriving DecidableEq, Repr

structure RetryRequest where
  pathname : String
  /-- outer `none`: `req.json()` throws; `some none`: the body is `null`. -/
  body : Option (Option RetryBody)

structure ProcessingJobR where
  id : String
  fileIds : List String
  text : Option String
  channel : Option String
  ts : Option String
  thread_ts : Option String
  user : Option String
  status : String
deriving DecidableEq, Repr

inductive RetryResponse
  | missingJobId
  | missingJobData
  | missingFields (fields : List String)
  | startFailed
  | restarted (jobId : String)
  | caught
deriving DecidableEq, Repr

def retryStatusCode : RetryResponse → Nat
  | RetryResponse.missingJobId => 400
  | RetryResponse.missingJobData => 400
  | RetryResponse.missingFields _ => 400
  | RetryResponse.startFailed => 500
  | RetryResponse.restarted _ => 200
  | RetryResponse.caught => 500

structure RetryResult where
  response : RetryResponse
  /-- jobs handed to `startCloudRunJob` (none: the call is stubbed out). -/
  dispatched : List ProcessingJobR
  /-- the fresh retry job object the handler builds. -/
  jobBuilt : Option ProcessingJobR
deriving Repr

/-- `pathname.split(c)` on the character list (JavaScript
`String.prototype.split` with a single-character separator). -/
def splitChar (c : Char) : List Char → List (List Char)
  | [] => [[]]
  | a :: rest =>
    let r := splitChar c rest
    if a == c then [] :: r
    else
      match r with
      | [] => [[a]]
      | h :: t => (a :: h) :: t

/-- `pathname.split('/')`. -/
def splitOnSlash (s : String) : List String :=
  (splitChar ('/') s.data).map (fun l => String.mk l)

def requiredFieldVal (b : RetryBody) : String → Option String
  | "channel" => b.channel
  | "ts" => b.ts
  | "user" => b.user
  | _ => none

def retryPOST (req : RetryRequest) : RetryResult :=
  let jobId := (splitOnSlash req.pathname).getLastD ""
  if jobId == "" then
    { response := RetryResponse.missingJobId, dispatched := [], jobBuilt := none }
  else
    match req.body with
    | none => { response := RetryResponse.caught, dispatched := [], jobBuilt := none }
    | some none => { response := RetryResponse.missingJobData, dispatched := [], jobBuilt := none }
    | some (some b) =>
      let missing := ([("channel"), ("ts"), ("user")]).filter
        (fun f => !(truthy (requiredFieldVal b f)))
      if !missing.isEmpty then
        { response := RetryResponse.missingFields missing, dispatched := [], jobBuilt := none }
      else
        let retryJob : ProcessingJobR :=
          { id := jobId, fileIds := b.fileIds, text := b.text, channel := b.channel
          , ts := b.ts, thread_ts := b.thread_ts, user := b.user, status := ("pending") }
        { response := RetryResponse.restarted jobId, dispatched := [], jobBuilt := some retryJob }

/-! ## Guard predicates and concrete fixtures -/

/-- The request reaches the `event_callback` processing block: it parses to
`jb`, is an `event_callback`, the credentials are configured, and the
timestamp and signature checks pass. -/
def eventCallbackGuards (env : HandlerEnv) (req : SlackRequest) (jb : ParsedBody) : Prop :=
  req.json = some jb ∧
  jb.type = ("event_callback") ∧
  env.credentialsOk = true ∧
  truthy req.tsHeader = true ∧
  env.nowSec - 60 * 10 ≤ env.strToNum ((req.tsHeader).getD "") ∧
  truthy req.sigHeader = true ∧
  verifySlackSignature env req.body ((req.sigHeader).getD "") ((req.tsHeader).getD "") = true

/-- The envelope carries a truthy event id, event timestamp and channel. -/
def eventIdsTruthy (jb : ParsedBody) : Prop :=
  truthy jb.event_id = true ∧ truthy jb.event.ts = true ∧ truthy jb.event.channel = true

/-- The dedup hash of the envelope. -/
def eventHashOf (jb : ParsedBody) : String :=
  generateEventHash ((jb.event_id).getD "") ((jb.event.channel).getD "") ((jb.event.ts).getD "")

/-- No live entry for `key` in the store at instant `now`. -/
def freshKey (now : Nat) (key : String) (store : List (String × Nat)) : Prop :=
  ∀ t, (key, t) ∈ store → now - t > MEMORY_EXPIRY_MS

/-- Concrete fixtures used by the witnesses and counterexamples. -/
def envT : HandlerEnv :=
  { nowSec := 1000, nowMs := 50, credentialsOk := true
  , hmacHex := fun _ => ("h"), strToNum := fun _ => 1000, newJobId := ("J1")
  , uploadOk := fun _ => true, uploadErrMsg := fun _ => ("up-err")
  , gcsPathOf := fun i => ("gcs/") ++ toString i
  , dbOk := true, publishOk := true }

def fileOkT : SlackFile :=
  { id := ("F1"), name := ("a.mp4"), size := 2000000, url_private := some ("https://u") }

def fileBigT : SlackFile :=
  { id := ("F2"), name := ("big.mp4"), size := 1073741825, url_private := some ("https://u2") }

def eventT (files : List SlackFile) : SlackEvent :=
  { type := ("message"), channel := some ("C1"), ts := some ("100.1"), thread_ts := none
  , user := some ("U1"), text := some ("t"), files := files }

def bodyT (files : List SlackFile) : ParsedBody :=
  { type := ("event_callback"), challenge := "", event_id := some ("E1")
  , event := eventT files }

def reqT (files : List SlackFile) : SlackRequest :=
  { body := ("B"), json := some (bodyT files), tsHeader := some ("1000")
  , sigHeader := some (("v0=") ++ ("h")) }

def challengeBodyT : ParsedBody :=
  { type := ("url_verification"), challenge := ("ch_123"), event_id := none, event := eventT [] }

def reqChallengeT : SlackRequest :=
  { body := "", json := some challengeBodyT, tsHeader := none, sigHeader := none }

def hashT : String := eventHashOf (bodyT [fileOkT])

def wenvOkT : WorkerEnv :=
  { findMedia := some ("m.mp4"), downloadResult := Except.ok ()
  , extractResult := Except.ok (), transcribeResult := Except.ok ("text")
  , persistResult := Except.ok (), transcriptUrl := ("https://t") }

def wenvFailT : WorkerEnv :=
  { findMedia := some ("m.mp4"), downloadResult := Except.ok ()
  , extractResult := Except.ok (), transcribeResult := Except.error ("boom")
  , persistResult := Except.ok (), transcriptUrl := ("https://t") }

def cbFailT : CloudRunCallback :=
  { jobId := some ("J1"), status := ("failure"), transcriptUrl := none
  , error := some ("boom"), metadata := none }

def cbFailMetaT : CloudRunCallback :=
  { jobId := some ("J1"), status := ("failure"), transcriptUrl := none
  , error := some ("boom")
  , metadata := some ({ channel := some ("C1"), ts := some ("100.1"), thread_ts := none }) }

def renvT : ReconcilerEnv :=
  { fetchResult := Except.ok ({ transcript := ("hi"), metadata := none })
  , summarizeResult := Except.ok ("sum"), notionResult := Except.ok ("https://n") }

def retryBodyT : RetryBody :=
  { fileIds := [("F1")], text := some ("t"), channel := some ("C1")
  , ts := some ("100.1"), thread_ts := none, user := some ("U1") }

def retryReqT : RetryRequest :=
  { pathname := ("/api/jobs/retry/J9"), body := some (some retryBodyT) }

def retryReqNoIdT : RetryRequest :=
  { pathname := ("/api/jobs/retry/"), body := some (some retryBodyT) }

def retryBodyNoUserT : RetryBody := { retryBodyT with user := none }

def retryReqNoUserT : RetryRequest :=
  { pathname := ("/api/jobs/retry/J9"), body := some (some retryBodyNoUserT) }

/-- `pat` is an initial segment of the character list. -/
def startsWithChars : List Char → List Char → Bool
  | _, [] => true
  | [], _ :: _ => false
  | a :: s, b :: t => (a == b) && startsWithChars s t

/-- `pat` occurs somewhere in the character list. -/
def occursChars (pat : List Char) : List Char → Bool
  | [] => pat.isEmpty
  | a :: s => startsWithChars (a :: s) pat || occursChars pat s

/-- `sub` occurs somewhere in `s`. -/
def containsStr (s sub : String) : Bool := occursChars sub.data s.data

/-- A delivery during which every external step fails: uploads, the
Firestore write and the Pub/Sub publish. -/
def envFailT : HandlerEnv :=
  { envT with uploadOk := fun _ => false, dbOk := false, publishOk := false }

/-- The redelivery environment, ten milliseconds later. -/
def env2T : HandlerEnv := { envT with nowMs := 60 }

/-! ## Theorems -/

/-! ### Helper lemmas about the store -/

theorem cleanup_mem {now : Nat} {st : List (String × Nat)} {e : String × Nat} :
    e ∈ cleanupMemoryStore now st ↔ e ∈ st ∧ now - e.2 ≤ MEMORY_EXPIRY_MS := by
  simp [cleanupMemoryStore, List.mem_filter]

theorem seenOrMark_fresh {k : String} {now : Nat} {st : List (String × Nat)}
    (h : ∀ t, ((("event:") ++ k), t) ∈ st → now - t > MEMORY_EXPIRY_MS) :
    isProcessedOrMark k now st =
      (false, ((("event:") ++ k), now) :: cleanupMemoryStore now st) := by
  unfold isProcessedOrMark
  have hany : (cleanupMemoryStore now st).any (fun kv => kv.1 == (("event:") ++ k)) = false := by
    rw [List.any_eq_false]
    intro kv hkv
    obtain ⟨a, b⟩ := kv
    have hm := cleanup_mem.mp hkv
    simp only [beq_iff_eq]
    intro hk
    subst hk
    have := h b hm.1
    omega
  simp [hany]

theorem seenOrMark_dup {k : String} {now t : Nat} {st : List (String × Nat)}
    (hmem : ((("event:") ++ k), t) ∈ st) (hlive : now - t ≤ MEMORY_EXPIRY_MS) :
    (isProcessedOrMark k now st).1 = true := by
  unfold isProcessedOrMark
  have hany : (cleanupMemoryStore now st).any (fun kv => kv.1 == (("event:") ++ k)) = true := by
    rw [List.any_eq_true]
    exact ⟨(((("event:") ++ k)), t), cleanup_mem.mpr ⟨hmem, hlive⟩, by simp⟩
  simp [hany]

/-- C1 -- Idempotency Store `isProcessedOrMark`: on a call with no live
(unexpired) entry for the key the operation returns `false` and records the
key at the current instant (this covers both the first call ever and a
fresh call after the TTL has elapsed); on a call while a live entry exists
it returns `true`. -/
theorem c1_idempotency_ttl (k : String) (now : Nat) (st : List (String × Nat)) :
    ((∀ t, ((("event:") ++ k), t) ∈ st → now - t > MEMORY_EXPIRY_MS) →
      (isProcessedOrMark k now st).1 = false ∧
      ((("event:") ++ k), now) ∈ (isProcessedOrMark k now st).2) ∧
    ((∃ t, ((("event:") ++ k), t) ∈ st ∧ now - t ≤ MEMORY_EXPIRY_MS) →
      (isProcessedOrMark k now st).1 = true) := by
  constructor
  · intro h
    rw [seenOrMark_fresh h]
    exact ⟨rfl, List.mem_cons_self _ _⟩
  · rintro ⟨t, hmem, hlive⟩
    exact seenOrMark_dup hmem hlive

/-- Witness for C1: a fresh key at instant 5 is reported unseen; marked at
instant 5 it is reported seen at instant 10 (inside the window); once only
expired entries remain (instant 5 + TTL + 1) it is reported unseen again. -/
theorem c1_witness :
    (isProcessedOrMark ("e1") 5 []).1 = false ∧
    (isProcessedOrMark ("e1") 10 [((("event:") ++ ("e1")), 5)]).1 = true ∧
    (isProcessedOrMark ("e1") (5 + MEMORY_EXPIRY_MS + 1) [((("event:") ++ ("e1")), 5)]).1 = false := by
  refine ⟨((c1_idempotency_ttl ("e1") 5 []).1 (by intro t ht; simp at ht)).1,
    (c1_idempotency_ttl ("e1") 10 _).2 ⟨5, by simp, by norm_num [MEMORY_EXPIRY_MS]⟩,
    ((c1_idempotency_ttl ("e1") (5 + MEMORY_EXPIRY_MS + 1) _).1 ?_).1⟩
  intro t ht
  simp at ht
  omega

/-! ### Dispatcher lemmas -/

theorem dispatch_event_callback {env : HandlerEnv} {req : SlackRequest} {jb : ParsedBody}
    (h : eventCallbackGuards env req jb) (store : List (String × Nat)) :
    combinedHandlerPOST env req store = handleEventCallback env jb store := by
  obtain ⟨h1, h2, h3, h4, h5, h6, h7⟩ := h
  have hbeq1 : ((("event_callback") : String) == ("url_verification")) = false := by decide
  have hbeq2 : ((("event_callback") : String) == ("event_callback")) = true := by decide
  have hdec : decide (env.strToNum ((req.tsHeader).getD "") < env.nowSec - 60 * 10) = false :=
    decide_eq_false (by omega)
  unfold combinedHandlerPOST
  rw [h1]
  simp [h2, hbeq1, hbeq2, h3, h4, h6, h7, hdec]
  intro hlt
  exact absurd hlt (by omega)

theorem dispatchJob_fields (env : HandlerEnv) (jb : ParsedBody) (results : List UploadResult)
    (attempted : Nat) (store : List (String × Nat)) :
    (dispatchJob env jb results attempted store).store = store ∧
    (dispatchJob env jb results attempted store).response = SlackResponse.jobCreated env.newJobId ∧
    (dispatchJob env jb results attempted store).uploadsAttempted = attempted :=
  ⟨rfl, rfl, rfl⟩

theorem processEventFiles_store (env : HandlerEnv) (jb : ParsedBody) (hash : String)
    (store : List (String × Nat)) :
    (processEventFiles env jb hash store).store = store := by
  simp only [processEventFiles]
  split
  · exact rfl
  · exact rfl

theorem processEventFiles_response (env : HandlerEnv) (jb : ParsedBody) (hash : String)
    (store : List (String × Nat)) :
    (processEventFiles env jb hash store).response = SlackResponse.jobCreated env.newJobId ∨
    (processEventFiles env jb hash store).response = SlackResponse.processedOk hash := by
  simp only [processEventFiles]
  split
  · exact Or.inl rfl
  · exact Or.inr rfl

theorem handler_duplicate_skip {env : HandlerEnv} {req : SlackRequest} {jb : ParsedBody}
    (h : eventCallbackGuards env req jb) (hids : eventIdsTruthy jb)
    {store : List (String × Nat)} {t : Nat}
    (hmem : ((("event:") ++ eventHashOf jb), t) ∈ store)
    (hlive : env.nowMs - t ≤ MEMORY_EXPIRY_MS) :
    combinedHandlerPOST env req store =
      pureResult (SlackResponse.duplicateSkipped (eventHashOf jb))
        (cleanupMemoryStore env.nowMs store) := by
  rw [dispatch_event_callback h]
  obtain ⟨hi1, hi2, hi3⟩ := hids
  have hdup : (isProcessedOrMark (eventHashOf jb) env.nowMs store).1 = true :=
    seenOrMark_dup hmem hlive
  have hsnd : (isProcessedOrMark (eventHashOf jb) env.nowMs store).2 =
      cleanupMemoryStore env.nowMs store := by
    simp only [isProcessedOrMark]
    split
    · rfl
    · next hc =>
        simp only [isProcessedOrMark] at hdup
        rw [if_neg hc] at hdup
        simp at hdup
  unfold handleEventCallback
  simp only [hi1, hi2, hi3, Bool.and_self, if_true]
  rw [show generateEventHash ((jb.event_id).getD "") ((jb.event.channel).getD "")
      ((jb.event.ts).getD "") = eventHashOf jb from rfl]
  rw [if_pos hdup, hsnd]

theorem handler_fresh_marks {env : HandlerEnv} {req : SlackRequest} {jb : ParsedBody}
    (h : eventCallbackGuards env req jb) (hids : eventIdsTruthy jb)
    {store : List (String × Nat)}
    (hfresh : freshKey env.nowMs (("event:") ++ eventHashOf jb) store) :
    ((("event:") ++ eventHashOf jb), env.nowMs) ∈ (combinedHandlerPOST env req store).store ∧
    ((combinedHandlerPOST env req store).response = SlackResponse.jobCreated env.newJobId ∨
     (combinedHandlerPOST env req store).response = SlackResponse.processedOk (eventHashOf jb)) := by
  rw [dispatch_event_callback h]
  obtain ⟨hi1, hi2, hi3⟩ := hids
  have hpm := seenOrMark_fresh hfresh
  unfold handleEventCallback
  simp only [hi1, hi2, hi3, Bool.and_self, if_true]
  rw [show generateEventHash ((jb.event_id).getD "") ((jb.event.channel).getD "")
      ((jb.event.ts).getD "") = eventHashOf jb from rfl]
  rw [hpm]
  simp only [Bool.false_eq_true, if_false]
  by_cases hmsg : (jb.event.type == ("message") && !jb.event.files.isEmpty) = true
  · rw [if_pos hmsg]
    constructor
    · rw [processEventFiles_store]
      exact List.mem_cons_self _ _
    · exact processEventFiles_response env jb (eventHashOf jb) _
  · rw [if_neg hmsg]
    exact ⟨List.mem_cons_self _ _, Or.inr rfl⟩

theorem processFile_oversized {env : HandlerEnv} {i : Nat} {f : SlackFile}
    (h : MAX_FILE_SIZE < f.size) : (processFile env i f).success = false := by
  unfold processFile
  rw [if_pos h]
  split <;> rfl

theorem results_all_fail_from {env : HandlerEnv} {files : List SlackFile}
    (hover : ∀ f ∈ files, MAX_FILE_SIZE < f.size) (n : Nat) :
    (((files.enumFrom n).map (fun p => processFile env p.1 p.2)).filter
      (fun r => r.success)) = [] := by
  induction files generalizing n with
  | nil => rfl
  | cons f fs ih =>
    have hhd : (processFile env n f).success = false :=
      processFile_oversized (hover f (List.mem_cons_self _ _))
    simp only [List.enumFrom, List.map_cons, List.filter_cons, hhd, Bool.false_eq_true,
      if_false]
    exact ih (fun g hg => hover g (List.mem_cons_of_mem _ hg)) (n + 1)

theorem attempted_zero {files : List SlackFile}
    (hover : ∀ f ∈ files, MAX_FILE_SIZE < f.size) :
    (files.filter uploadAttempted).length = 0 := by
  rw [List.length_eq_zero, List.filter_eq_nil_iff]
  intro f hf
  have hs := hover f hf
  unfold uploadAttempted
  simp [decide_eq_false (not_le.mpr hs)]

/-- C9 -- A parsed body of type `url_verification` is answered with the
challenge echo immediately: the theorem holds for every environment and
every pair of header values (including absent ones), so no timestamp or
signature verification guards the echo, and an unsigned request of that
type obtains it.  The result is `pureResult`, so no store change and no
effect is performed. -/
theorem c9_url_verification_echo (env : HandlerEnv) (req : SlackRequest)
    (store : List (String × Nat)) (jb : ParsedBody)
    (h1 : req.json = some jb) (h2 : jb.type = ("url_verification")) :
    combinedHandlerPOST env req store =
      pureResult (SlackResponse.challenge jb.challenge) store := by
  unfold combinedHandlerPOST
  rw [h1]
  dsimp only
  rw [if_pos (by rw [h2]; exact beq_self_eq_true _)]

/-- Witness for C9: a concrete unsigned `url_verification` request (both
Slack headers absent) obtains the challenge echo. -/
theorem c9_witness :
    combinedHandlerPOST envT reqChallengeT [] =
      pureResult (SlackResponse.challenge ("ch_123")) [] ∧
    reqChallengeT.tsHeader = none ∧ reqChallengeT.sigHeader = none :=
  ⟨c9_url_verification_echo envT reqChallengeT [] challengeBodyT rfl rfl, rfl, rfl⟩

/-- C4 -- For a non-`url_verification` request (with the GCP credentials
configured, which the code checks first): a missing (or empty, hence
falsy) timestamp header, or one more than 10 minutes old, is rejected with
the 401 `invalidTimestamp` response and no effect; with a fresh timestamp,
a missing signature header or one that differs from
`"v0=" ++ HMAC-SHA256(secret, "v0:" ++ timestamp ++ ":" ++ body)` is
rejected with the 401 `invalidSignature` response and no effect.  The
comparison in the source is `crypto.timingSafeEqual`, modelled functionally
as string equality. -/
theorem c4_signature_verification (env : HandlerEnv) (req : SlackRequest)
    (store : List (String × Nat)) (jb : ParsedBody)
    (h1 : req.json = some jb) (h2 : jb.type ≠ ("url_verification"))
    (h3 : env.credentialsOk = true) :
    ((truthy req.tsHeader = false ∨
        env.strToNum ((req.tsHeader).getD "") < env.nowSec - 60 * 10) →
      combinedHandlerPOST env req store = pureResult SlackResponse.invalidTimestamp store ∧
      statusCode (combinedHandlerPOST env req store).response = 401) ∧
    (truthy req.tsHeader = true →
      env.nowSec - 60 * 10 ≤ env.strToNum ((req.tsHeader).getD "") →
      (truthy req.sigHeader = false ∨
        (("v0=") ++ env.hmacHex (("v0:") ++ ((req.tsHeader).getD "") ++ (":") ++ req.body)) ≠
          ((req.sigHeader).getD "")) →
      combinedHandlerPOST env req store = pureResult SlackResponse.invalidSignature store ∧
      statusCode (combinedHandlerPOST env req store).response = 401) := by
  have hne : ¬ ((jb.type == ("url_verification")) = true) := by
    simp only [beq_iff_eq]
    exact h2
  constructor
  · intro hbad
    have heq : combinedHandlerPOST env req store =
        pureResult SlackResponse.invalidTimestamp store := by
      unfold combinedHandlerPOST
      rw [h1]
      dsimp only
      rw [if_neg hne, if_neg (by simp [h3])]
      rw [if_pos ?_]
      rcases hbad with hb | hb
      · simp [hb]
      · have hb6 : env.strToNum ((req.tsHeader).getD "") < env.nowSec - 600 := by omega
        simp [hb6]
    exact ⟨heq, by rw [heq]; rfl⟩
  · intro hts hle hbad
    have heq : combinedHandlerPOST env req store =
        pureResult SlackResponse.invalidSignature store := by
      unfold combinedHandlerPOST
      rw [h1]
      dsimp only
      rw [if_neg hne, if_neg (by simp [h3])]
      rw [if_neg (by simp [hts]; omega)]
      rw [if_pos ?_]
      rcases hbad with hb | hb
      · simp [hb]
      · have hv : verifySlackSignature env req.body ((req.sigHeader).getD "")
            ((req.tsHeader).getD "") = false := by
          unfold verifySlackSignature
          exact beq_eq_false_iff_ne.mpr hb
        simp [hv]
    exact ⟨heq, by rw [heq]; rfl⟩

/-- Witness for C4: with the concrete environment, a request with no
timestamp header is answered 401 `invalidTimestamp`, and a request with a
fresh timestamp but a wrong signature is answered 401 `invalidSignature`. -/
theorem c4_witness :
    (combinedHandlerPOST envT
        { body := ("B"), json := some (bodyT [fileOkT]), tsHeader := none
        , sigHeader := some (("v0=") ++ ("h")) } [] =
      pureResult SlackResponse.invalidTimestamp []) ∧
    (combinedHandlerPOST envT
        { body := ("B"), json := some (bodyT [fileOkT]), tsHeader := some ("1000")
        , sigHeader := some ("v0=wrong") } [] =
      pureResult SlackResponse.invalidSignature []) := by
  constructor
  · exact ((c4_signature_verification envT
      { body := ("B"), json := some (bodyT [fileOkT]), tsHeader := none
      , sigHeader := some (("v0=") ++ ("h")) } [] (bodyT [fileOkT]) rfl (by decide) rfl).1
      (Or.inl rfl)).1
  · exact ((c4_signature_verification envT
      { body := ("B"), json := some (bodyT [fileOkT]), tsHeader := some ("1000")
      , sigHeader := some ("v0=wrong") } [] (bodyT [fileOkT]) rfl (by decide) rfl).2
      (by decide) (by decide) (Or.inr (by decide))).1

/-- C3 -- Replaying an event envelope whose dedup key has a live entry in
the Idempotency Store is answered with `duplicate_event_skipped`, with no
Job Record created, no queue message published, no notification sent and
no upload attempted. -/
theorem c3_duplicate_replay_skipped (env : HandlerEnv) (req : SlackRequest)
    (store : List (String × Nat)) (jb : ParsedBody) (t : Nat)
    (h : eventCallbackGuards env req jb) (hids : eventIdsTruthy jb)
    (hmem : ((("event:") ++ eventHashOf jb), t) ∈ store)
    (hlive : env.nowMs - t ≤ MEMORY_EXPIRY_MS) :
    (combinedHandlerPOST env req store).response =
      SlackResponse.duplicateSkipped (eventHashOf jb) ∧
    (combinedHandlerPOST env req store).jobsCreated = [] ∧
    (combinedHandlerPOST env req store).published = [] ∧
    (combinedHandlerPOST env req store).slackSent = [] ∧
    (combinedHandlerPOST env req store).uploadsAttempted = 0 := by
  rw [handler_duplicate_skip h hids hmem hlive]
  exact ⟨rfl, rfl, rfl, rfl, rfl⟩

/-- Witness for C3: a concrete event whose key was recorded at instant 40
is replayed at instant 50 and skipped without effects. -/
theorem c3_witness :
    (combinedHandlerPOST envT (reqT [fileOkT]) [((("event:") ++ hashT), 40)]).response =
      SlackResponse.duplicateSkipped hashT ∧
    (combinedHandlerPOST envT (reqT [fileOkT]) [((("event:") ++ hashT), 40)]).jobsCreated = [] ∧
    (combinedHandlerPOST envT (reqT [fileOkT]) [((("event:") ++ hashT), 40)]).published = [] ∧
    (combinedHandlerPOST envT (reqT [fileOkT]) [((("event:") ++ hashT), 40)]).uploadsAttempted = 0 := by
  have h := c3_duplicate_replay_skipped envT (reqT [fileOkT])
    [((("event:") ++ hashT), 40)] (bodyT [fileOkT]) 40
    ⟨rfl, rfl, rfl, by decide, by decide, by decide, by decide⟩
    ⟨by decide, by decide, by decide⟩
    (List.mem_cons_self _ _) (by decide)
  exact ⟨h.1, h.2.1, h.2.2.1, h.2.2.2.2⟩

/-- C10 -- A fresh (not yet seen) event is marked in the Idempotency Store
before any upload, record write or publish can influence it: the first
conjunct holds for every oracle environment, including ones in which every
upload, the Firestore write and the Pub/Sub publish fail, so the mark is
never rolled back; the handler still answers 200.  Any redelivery of the
same event key within the TTL against the resulting store is answered
`duplicate_event_skipped` with no upload, no record and no publish. -/
theorem c10_mark_survives_failures (env env2 : HandlerEnv) (req req2 : SlackRequest)
    (store : List (String × Nat)) (jb jb2 : ParsedBody)
    (h : eventCallbackGuards env req jb) (hids : eventIdsTruthy jb)
    (hfresh : freshKey env.nowMs (("event:") ++ eventHashOf jb) store)
    (h2 : eventCallbackGuards env2 req2 jb2) (hids2 : eventIdsTruthy jb2)
    (hsame : eventHashOf jb2 = eventHashOf jb)
    (hwin : env2.nowMs - env.nowMs ≤ MEMORY_EXPIRY_MS) :
    ((("event:") ++ eventHashOf jb), env.nowMs) ∈ (combinedHandlerPOST env req store).store ∧
    statusCode (combinedHandlerPOST env req store).response = 200 ∧
    (combinedHandlerPOST env2 req2 (combinedHandlerPOST env req store).store).response =
      SlackResponse.duplicateSkipped (eventHashOf jb2) ∧
    (combinedHandlerPOST env2 req2 (combinedHandlerPOST env req store).store).jobsCreated = [] ∧
    (combinedHandlerPOST env2 req2 (combinedHandlerPOST env req store).store).published = [] ∧
    (combinedHandlerPOST env2 req2 (combinedHandlerPOST env req store).store).uploadsAttempted = 0 := by
  obtain ⟨hmark, hresp⟩ := handler_fresh_marks h hids hfresh
  have hcode : statusCode (combinedHandlerPOST env req store).response = 200 := by
    rcases hresp with hr | hr <;> rw [hr] <;> rfl
  have hmem2 : ((("event:") ++ eventHashOf jb2), env.nowMs) ∈
      (combinedHandlerPOST env req store).store := by
    rw [hsame]; exact hmark
  have hd := handler_duplicate_skip h2 hids2 hmem2 hwin
  rw [hd]
  exact ⟨hmark, hcode, rfl, rfl, rfl, rfl⟩

/-- Witness for C10: a concrete fresh event delivered while every upload,
the record write and the publish fail is still marked at instant 50, the
response is 200, and the redelivery at instant 60 is skipped with no
effects. -/
theorem c10_witness :
    ((("event:") ++ hashT), 50) ∈ (combinedHandlerPOST envFailT (reqT [fileOkT]) []).store ∧
    statusCode (combinedHandlerPOST envFailT (reqT [fileOkT]) []).response = 200 ∧
    (combinedHandlerPOST env2T (reqT [fileOkT])
        (combinedHandlerPOST envFailT (reqT [fileOkT]) []).store).response =
      SlackResponse.duplicateSkipped hashT ∧
    (combinedHandlerPOST env2T (reqT [fileOkT])
        (combinedHandlerPOST envFailT (reqT [fileOkT]) []).store).jobsCreated = [] ∧
    (combinedHandlerPOST env2T (reqT [fileOkT])
        (combinedHandlerPOST envFailT (reqT [fileOkT]) []).store).published = [] := by
  have h := c10_mark_survives_failures envFailT env2T (reqT [fileOkT]) (reqT [fileOkT]) []
    (bodyT [fileOkT]) (bodyT [fileOkT])
    ⟨rfl, rfl, rfl, by decide, by decide, by decide, by decide⟩
    ⟨by decide, by decide, by decide⟩
    (by intro t ht; simp at ht)
    ⟨rfl, rfl, rfl, by decide, by decide, by decide, by decide⟩
    ⟨by decide, by decide, by decide⟩
    rfl (by decide)
  exact ⟨h.1, h.2.1, h.2.2.1, h.2.2.2.1, h.2.2.2.2.1⟩

/-- C7 counterexample: a fresh event whose only file exceeds the
1 GiB limit creates no Job Record and publishes nothing, but the
conversation receives the generic all-files-failed text, which does not
mention the size limit -- so "the originating conversation receives a
size-limit message" is false at this input. -/
theorem c7_counterexample :
    1073741824 < fileBigT.size ∧
    (combinedHandlerPOST envT (reqT [fileBigT]) []).jobsCreated = [] ∧
    (combinedHandlerPOST envT (reqT [fileBigT]) []).published = [] ∧
    (combinedHandlerPOST envT (reqT [fileBigT]) []).uploadsAttempted = 0 ∧
    ((combinedHandlerPOST envT (reqT [fileBigT]) []).slackSent.map (fun m => m.text)) =
      [allFailedMessage] ∧
    ((combinedHandlerPOST envT (reqT [fileBigT]) []).slackSent.all
      (fun m => !(containsStr m.text sizeLimitText))) = true := by
  decide

/-- C7 (amended) -- When a fresh, verified `message` event's files are all
over the size limit, every file is rejected before any upload is attempted,
no Job Record is written and no queue message is published, and the
conversation receives the generic all-files-failed message (not the
per-file size-limit text, which is only embedded in the status message of
a dispatch in which some other file succeeded). -/
theorem c7_oversized_rejected (env : HandlerEnv) (req : SlackRequest)
    (store : List (String × Nat)) (jb : ParsedBody)
    (h : eventCallbackGuards env req jb) (hids : eventIdsTruthy jb)
    (hfresh : freshKey env.nowMs (("event:") ++ eventHashOf jb) store)
    (hmsg : jb.event.type = ("message")) (hne : jb.event.files ≠ [])
    (hover : ∀ f ∈ jb.event.files, MAX_FILE_SIZE < f.size) :
    (combinedHandlerPOST env req store).jobsCreated = [] ∧
    (combinedHandlerPOST env req store).published = [] ∧
    (combinedHandlerPOST env req store).uploadsAttempted = 0 ∧
    ((combinedHandlerPOST env req store).slackSent.map (fun m => m.text)) =
      [allFailedMessage] ∧
    (combinedHandlerPOST env req store).response =
      SlackResponse.processedOk (eventHashOf jb) := by
  rw [dispatch_event_callback h]
  obtain ⟨hi1, hi2, hi3⟩ := hids
  have hpm := seenOrMark_fresh hfresh
  unfold handleEventCallback
  simp only [hi1, hi2, hi3, Bool.and_self, if_true]
  rw [show generateEventHash ((jb.event_id).getD "") ((jb.event.channel).getD "")
      ((jb.event.ts).getD "") = eventHashOf jb from rfl]
  rw [hpm]
  simp only [Bool.false_eq_true, if_false]
  rw [if_pos (by simp [hmsg, hne])]
  simp only [processEventFiles]
  rw [if_neg ?_]
  · have hatt := attempted_zero hover
    exact ⟨rfl, rfl, hatt, rfl, rfl⟩
  · rw [show jb.event.files.enum = jb.event.files.enumFrom 0 from rfl]
    rw [results_all_fail_from hover 0]
    simp

/-- Witness for C7 (amended): the concrete single-oversized-file event is
rejected before upload with no record, no publish and the generic failure
notification. -/
theorem c7_witness :
    (combinedHandlerPOST envT (reqT [fileBigT]) []).jobsCreated = [] ∧
    (combinedHandlerPOST envT (reqT [fileBigT]) []).published = [] ∧
    ((combinedHandlerPOST envT (reqT [fileBigT]) []).slackSent.map (fun m => m.text)) =
      [allFailedMessage] := by
  have h := c7_oversized_rejected envT (reqT [fileBigT]) [] (bodyT [fileBigT])
    ⟨rfl, rfl, rfl, by decide, by decide, by decide, by decide⟩
    ⟨by decide, by decide, by decide⟩
    (by intro t ht; simp at ht)
    rfl (by decide) (by decide)
  exact ⟨h.1, h.2.1, h.2.2.2.1⟩

/-! ### Worker theorems -/

theorem stageOrderOk_nil : stageOrderOk [] := ⟨0, rfl⟩

theorem stageOrderOk_one : stageOrderOk [Stage.fetch] := ⟨1, rfl⟩

theorem stageOrderOk_two : stageOrderOk [Stage.fetch, Stage.transform] := ⟨2, rfl⟩

theorem stageOrderOk_three : stageOrderOk [Stage.fetch, Stage.transform, Stage.analyze] :=
  ⟨3, rfl⟩

theorem stageOrderOk_four : stageOrderOk stageOrder := ⟨4, rfl⟩

/-- C2 -- (spec-modelled status updates) In every worker run the stages
entered, and the stages completed, are an in-order no-skip run of
fetch → transform → analyze → persist; the Job Record status trace starts
at `pending`, moves only along the spec graph (in particular `failed` is
entered only from a non-terminal status), equals the full
`pending → processing_audio → transcribing → summarizing → completed` path
when the run succeeds, and ends at `failed` when any stage errors. -/
theorem c2_worker_stage_status (jobId : String) (fileCount : Nat) (env : WorkerEnv) :
    stageOrderOk (runStages jobId fileCount env).entered ∧
    stageOrderOk (runStages jobId fileCount env).completed ∧
    chainOk (workerStatusTrace (runStages jobId fileCount env)) = true ∧
    (workerStatusTrace (runStages jobId fileCount env)).head? = some JobStatus.pending ∧
    (∀ u, (runStages jobId fileCount env).outcome = Except.ok u →
      workerStatusTrace (runStages jobId fileCount env) =
        [JobStatus.pending, JobStatus.processing_audio, JobStatus.transcribing,
         JobStatus.summarizing, JobStatus.completed]) ∧
    (∀ e, (runStages jobId fileCount env).outcome = Except.error e →
      (workerStatusTrace (runStages jobId fileCount env)).getLast? = some JobStatus.failed) := by
  obtain ⟨fm, dl, ex, tr, ps, url⟩ := env
  by_cases h0 : fileCount = 0
  · subst h0
    exact ⟨stageOrderOk_nil, stageOrderOk_nil, rfl, rfl,
      fun u hu => Except.noConfusion hu, fun e he => rfl⟩
  · simp only [runStages, h0, if_false]
    rcases fm with _ | m
    · exact ⟨stageOrderOk_one, stageOrderOk_nil, rfl, rfl,
        fun u hu => Except.noConfusion hu, fun e he => rfl⟩
    rcases dl with e1 | u1
    · exact ⟨stageOrderOk_one, stageOrderOk_nil, rfl, rfl,
        fun u hu => Except.noConfusion hu, fun e he => rfl⟩
    rcases ex with e2 | u2
    · exact ⟨stageOrderOk_two, stageOrderOk_one, rfl, rfl,
        fun u hu => Except.noConfusion hu, fun e he => rfl⟩
    rcases tr with e3 | u3
    · exact ⟨stageOrderOk_three, stageOrderOk_two, rfl, rfl,
        fun u hu => Except.noConfusion hu, fun e he => rfl⟩
    rcases ps with e4 | u4
    · exact ⟨stageOrderOk_four, stageOrderOk_three, rfl, rfl,
        fun u hu => Except.noConfusion hu, fun e he => rfl⟩
    · exact ⟨stageOrderOk_four, stageOrderOk_four, rfl, rfl,
        fun u hu => rfl, fun e he => Except.noConfusion he⟩

/-- Witness for C2: a concrete all-stages-succeed run yields the full
status path, and a concrete analyze-failure run ends at `failed`. -/
theorem c2_witness :
    chainOk (workerStatusTrace (runStages ("J1") 1 wenvOkT)) = true ∧
    workerStatusTrace (runStages ("J1") 1 wenvOkT) =
      [JobStatus.pending, JobStatus.processing_audio, JobStatus.transcribing,
       JobStatus.summarizing, JobStatus.completed] ∧
    (workerStatusTrace (runStages ("J1") 1 wenvFailT)).getLast? = some JobStatus.failed := by
  have h1 := c2_worker_stage_status ("J1") 1 wenvOkT
  have h2 := c2_worker_stage_status ("J1") 1 wenvFailT
  exact ⟨h1.2.2.1, h1.2.2.2.2.1 ("https://t") rfl, h2.2.2.2.2.2 ("boom") rfl⟩

/-- C5 -- (spec-modelled Job Record) When stages 1 and 2 succeed and the
analyze stage (speech recognition) throws `e`, the run enters exactly the
fetch, transform and analyze stages -- the persist stage is never
entered -- the worker still sends exactly one failure callback carrying
`e`, and the terminal Job Record is `failed` with the non-empty error
detail `e`. -/
theorem c5_analyze_failure (jobId : String) (n : Nat) (m e : String) (env : WorkerEnv)
    (hn : n ≠ 0) (hfm : env.findMedia = some m)
    (hdl : env.downloadResult = Except.ok ()) (hex : env.extractResult = Except.ok ())
    (htr : env.transcribeResult = Except.error e) (he : e ≠ "") :
    (runStages jobId n env).entered = [Stage.fetch, Stage.transform, Stage.analyze] ∧
    Stage.persist ∉ (runStages jobId n env).entered ∧
    (runStages jobId n env).callbacks =
      [{ jobId := jobId, success := false, payload := e }] ∧
    (workerFinalRecord jobId (runStages jobId n env)).status = JobStatus.failed ∧
    (workerFinalRecord jobId (runStages jobId n env)).errorDetails = some e ∧
    e ≠ "" := by
  have hrun : runStages jobId n env =
      workerFail jobId [Stage.fetch, Stage.transform, Stage.analyze]
        [Stage.fetch, Stage.transform] e := by
    unfold runStages
    rw [if_neg hn, hfm, hdl, hex, htr]
  rw [hrun]
  refine ⟨rfl, ?_, rfl, rfl, rfl, he⟩
  simp [workerFail]

/-- Witness for C5: the concrete analyze-failure environment. -/
theorem c5_witness :
    (runStages ("J1") 1 wenvFailT).entered = [Stage.fetch, Stage.transform, Stage.analyze] ∧
    Stage.persist ∉ (runStages ("J1") 1 wenvFailT).entered ∧
    (runStages ("J1") 1 wenvFailT).callbacks =
      [{ jobId := ("J1"), success := false, payload := ("boom") }] ∧
    (workerFinalRecord ("J1") (runStages ("J1") 1 wenvFailT)).status = JobStatus.failed ∧
    (workerFinalRecord ("J1") (runStages ("J1") 1 wenvFailT)).errorDetails = some ("boom") := by
  have h := c5_analyze_failure ("J1") 1 ("m.mp4") ("boom") wenvFailT
    (by decide) rfl rfl rfl rfl (by decide)
  exact ⟨h.1, h.2.1, h.2.2.1, h.2.2.2.1, h.2.2.2.2.1⟩

/-! ### Callback-reconciler theorems -/

/-- C6 counterexample: a concrete failure callback (as produced by the
worker's failure path, which carries no metadata) is acknowledged with
`error_logged`, but the handler performs no Job Record update and sends no
message to any conversation -- refuting both "surfaces the error to the
originating conversation" and "writes a terminal failed update to the Job
Record" at this input. -/
theorem c6_counterexample :
    (callbackPOST renvT { hasBody := true, json := some cbFailT }).response =
      CallbackResponse.errorLogged ∧
    (callbackPOST renvT { hasBody := true, json := some cbFailT }).recordUpdates = [] ∧
    (callbackPOST renvT { hasBody := true, json := some cbFailT }).slackSent = [] := by
  decide

/-- C6 (amended) -- On a failure callback the reconciler acknowledges with
`error_logged` and performs no further pipeline step: no transcript fetch,
no summarization call, no knowledge-base page and no success notification.
It writes no Job Record update at all, and it notifies the originating
conversation only when the callback's metadata carries a (truthy) channel;
the worker's failure payload carries no metadata, so such callbacks
produce no notification. -/
theorem c6_failure_callback (env : ReconcilerEnv) (req : CallbackRequest)
    (cb : CloudRunCallback) (hb : req.hasBody = true) (hj : req.json = some cb)
    (hid : truthy cb.jobId = true) (hst : cb.status = ("failure")) :
    (callbackPOST env req).response = CallbackResponse.errorLogged ∧
    (callbackPOST env req).transcriptFetches = 0 ∧
    (callbackPOST env req).summarizeCalls = 0 ∧
    (callbackPOST env req).notionCreates = 0 ∧
    (callbackPOST env req).recordUpdates = [] ∧
    (callbackPOST env req).slackSent =
      metaErrNotify cb.metadata
        (("音声/動画処理中にエラーが発生しました: ") ++
          orElseStr cb.error (some ("不明なエラー"))) := by
  have hbeq : (cb.status == ("failure")) = true := by rw [hst]; exact beq_self_eq_true _
  unfold callbackPOST
  rw [hj]
  simp only [hb, Bool.not_true, Bool.false_eq_true, if_false, hid, hbeq, if_true]
  exact ⟨trivial, trivial, trivial, trivial, trivial, trivial⟩

/-- Witness for C6 (amended): a failure callback whose metadata carries the
channel is acknowledged, performs no pipeline step or record update, and
notifies that channel with the error text. -/
theorem c6_witness :
    (callbackPOST renvT { hasBody := true, json := some cbFailMetaT }).response =
      CallbackResponse.errorLogged ∧
    (callbackPOST renvT { hasBody := true, json := some cbFailMetaT }).summarizeCalls = 0 ∧
    (callbackPOST renvT { hasBody := true, json := some cbFailMetaT }).recordUpdates = [] ∧
    (callbackPOST renvT { hasBody := true, json := some cbFailMetaT }).slackSent =
      metaErrNotify cbFailMetaT.metadata
        (("音声/動画処理中にエラーが発生しました: ") ++
          orElseStr cbFailMetaT.error (some ("不明なエラー"))) := by
  have h := c6_failure_callback renvT { hasBody := true, json := some cbFailMetaT }
    cbFailMetaT rfl rfl (by decide) rfl
  exact ⟨h.1, h.2.2.1, h.2.2.2.2.1, h.2.2.2.2.2⟩

/-! ### Job-retry theorems -/

/-- C8 counterexample: a concrete POST with a job id in the path and a
body re-supplying channel, ts and user is answered 200 "restarted", but
nothing is handed to `startCloudRunJob` -- the dispatch call is commented
out in the source and replaced by a constant-true stub -- so "re-dispatches
the work as a fresh job" is false at this input. -/
theorem c8_counterexample :
    (retryPOST retryReqT).response = RetryResponse.restarted ("J9") ∧
    (retryPOST retryReqT).dispatched = [] := by
  decide

/-- C8 (amended) -- The retry endpoint rejects with 400 a request whose
path carries no job id and a request whose body misses any of the required
fields channel, ts, user; a valid request is answered 200 and a fresh
`pending` job object is built from the re-supplied fields (not loaded from
the old record), but the actual re-dispatch is stubbed out: no job is
handed to `startCloudRunJob`. -/
theorem c8_retry_fresh_job (req : RetryRequest) :
    (((splitOnSlash req.pathname).getLastD "") = "" →
      (retryPOST req).response = RetryResponse.missingJobId ∧
      retryStatusCode (retryPOST req).response = 400) ∧
    (∀ b, ((splitOnSlash req.pathname).getLastD "") ≠ "" → req.body = some (some b) →
      (truthy b.channel = false ∨ truthy b.ts = false ∨ truthy b.user = false) →
      retryStatusCode (retryPOST req).response = 400 ∧
      (retryPOST req).dispatched = []) ∧
    (∀ b, ((splitOnSlash req.pathname).getLastD "") ≠ "" → req.body = some (some b) →
      truthy b.channel = true → truthy b.ts = true → truthy b.user = true →
      (retryPOST req).response =
        RetryResponse.restarted ((splitOnSlash req.pathname).getLastD "") ∧
      retryStatusCode (retryPOST req).response = 200 ∧
      (retryPOST req).jobBuilt = some
        { id := ((splitOnSlash req.pathname).getLastD ""), fileIds := b.fileIds
        , text := b.text, channel := b.channel, ts := b.ts, thread_ts := b.thread_ts
        , user := b.user, status := ("pending") } ∧
      (retryPOST req).dispatched = []) := by
  refine ⟨?_, ?_, ?_⟩
  · intro hempty
    have heq : retryPOST req =
        { response := RetryResponse.missingJobId, dispatched := [], jobBuilt := none } := by
      unfold retryPOST
      rw [if_pos (by rw [hempty]; exact beq_self_eq_true _)]
    rw [heq]
    exact ⟨rfl, rfl⟩
  · intro b hpath hb hbad
    have hne : (((splitOnSlash req.pathname).getLastD "") == "") = false :=
      beq_eq_false_iff_ne.mpr hpath
    have hmiss : ((([("channel"), ("ts"), ("user")]).filter
        (fun f => !(truthy (requiredFieldVal b f)))).isEmpty) = false := by
      rcases hbad with hf | hf | hf <;>
        cases hc : truthy b.channel <;> cases ht : truthy b.ts <;>
        cases hu : truthy b.user <;> simp_all [requiredFieldVal]
    have heq : (retryPOST req).response = RetryResponse.missingFields
        ((([("channel"), ("ts"), ("user")]).filter
          (fun f => !(truthy (requiredFieldVal b f))))) ∧
        (retryPOST req).dispatched = [] := by
      unfold retryPOST
      rw [if_neg (by simpa using hpath), hb]
      dsimp only
      rw [if_pos (by simp [hmiss])]
      exact ⟨rfl, rfl⟩
    rw [heq.1]
    exact ⟨rfl, heq.2⟩
  · intro b hpath hb hch hts hus
    have hne : (((splitOnSlash req.pathname).getLastD "") == "") = false :=
      beq_eq_false_iff_ne.mpr hpath
    have hmiss : ((([("channel"), ("ts"), ("user")]).filter
        (fun f => !(truthy (requiredFieldVal b f))))) = [] := by
      simp [requiredFieldVal, hch, hts, hus]
    have heq : retryPOST req =
        { response := RetryResponse.restarted ((splitOnSlash req.pathname).getLastD "")
        , dispatched := []
        , jobBuilt := some
            { id := ((splitOnSlash req.pathname).getLastD ""), fileIds := b.fileIds
            , text := b.text, channel := b.channel, ts := b.ts, thread_ts := b.thread_ts
            , user := b.user, status := ("pending") } } := by
      unfold retryPOST
      rw [if_neg (by simpa using hpath), hb]
      dsimp only
      rw [if_neg (by simp [hmiss])]
    rw [heq]
    exact ⟨rfl, rfl, rfl, rfl⟩

/-- Witness for C8 (amended): the concrete valid retry request is answered
200 with a fresh pending job object and an empty dispatch list, a request
with an empty path segment is answered 400, and a request missing `user`
is answered 400. -/
theorem c8_witness :
    (retryPOST retryReqT).response = RetryResponse.restarted ("J9") ∧
    retryStatusCode (retryPOST retryReqT).response = 200 ∧
    (retryPOST retryReqT).jobBuilt = some
      { id := ("J9"), fileIds := [("F1")], text := some ("t"), channel := some ("C1")
      , ts := some ("100.1"), thread_ts := none, user := some ("U1")
      , status := ("pending") } ∧
    (retryPOST retryReqT).dispatched = [] ∧
    retryStatusCode (retryPOST retryReqNoIdT).response = 400 ∧
    retryStatusCode (retryPOST retryReqNoUserT).response = 400 := by
  have h := c8_retry_fresh_job retryReqT
  have h3 := (h.2.2) retryBodyT (by decide) rfl (by decide) (by decide) (by decide)
  have h1 := (c8_retry_fresh_job retryReqNoIdT).1 (by decide)
  have h2 := ((c8_retry_fresh_job retryReqNoUserT).2.1)
    retryBodyNoUserT (by decide) rfl (Or.inr (Or.inr (by decide)))
  exact ⟨h3.1, h3.2.1, h3.2.2.1, h3.2.2.2, h1.2, h2.1⟩
